import Mathlib

/-!
Shallow embedding of `src/index.js` (a GitHub action that triggers a Jenkins
job and optionally polls it to completion), together with proofs checking the
natural-language specification against it.

Modelling conventions:
* JavaScript values parsed from JSON response bodies are modelled by `JsValue`;
  property access, truthiness and `==` against a string literal are embedded by
  `jsField`, `truthy` and `jsLooseEqStr`.
* `JSON.parse` is embedded by `jsonParse` (integer-only numbers: the status
  documents consumed by the program carry no numeric fields that are ever read).
* The HTTP transport is abstracted as an oracle: a run is driven by the list of
  `HttpResponse`s the server would return, one per `getJobStatus` call.
* Promise resolution/rejection of `getJobStatus` becomes `PollResult`.  An
  exception that escapes the response callback is an uncaught exception that
  kills the process before the awaiting code runs again: `JSON.parse` of an
  empty body throws before `resolve` (recorded as `crashed`), and on a
  transport error the missing `return` after `reject(err)` makes
  `res.statusCode` throw, so the rejection is never observed (recorded as
  `transportCrashed`).
-/

/-- A JavaScript value as produced by `JSON.parse`, plus `undefined` for the value
of a missing property. -/
inductive JsValue where
  | undefined
  | null
  | bool (b : Bool)
  | num (n : Int)
  | str (s : String)
  | arr (xs : List JsValue)
  | obj (fields : List (String × JsValue))

/-- Last-wins association lookup: `JSON.parse` keeps the final occurrence of a
duplicated key, so field lookup returns the latest binding. -/
def lookupField : List (String × JsValue) → String → Option JsValue
  | [], _ => none
  | (k, v) :: rest, name =>
    match lookupField rest name with
    | some w => some w
    | none => if k = name then some v else none

/-- JavaScript property access `v[name]` on a parsed-JSON value: objects look
the field up, any non-object yields `undefined`. -/
def jsField (v : JsValue) (name : String) : JsValue :=
  match v with
  | .obj fields =>
    match lookupField fields name with
    | some w => w
    | none => .undefined
  | _ => .undefined

/-- JavaScript truthiness of a parsed-JSON value (or `undefined`). -/
def truthy : JsValue → Bool
  | .undefined => false
  | .null => false
  | .bool b => b
  | .num n => n != 0
  | .str s => s != ""
  | .arr _ => true
  | .obj _ => true

/-- JavaScript loose equality `v == lit` where `lit` is one of the
non-numeric string literals the program compares against ("SUCCESS",
"FAILURE", "ABORTED"): only a string value can compare equal, since
`ToNumber` of such a literal is NaN. -/
def jsLooseEqStr (v : JsValue) (lit : String) : Bool :=
  match v with
  | .str s => s == lit
  | _ => false

mutual

/-- Template-literal stringification `String(v)` of the values the program
interpolates into messages. -/
def jsToString : JsValue → String
  | .undefined => "undefined"
  | .null => "null"
  | .bool b => cond b "true" "false"
  | .num n => toString n
  | .str s => s
  | .arr xs => jsToStringItems xs
  | .obj _ => "[object Object]"

/-- Array elements joined by commas, as `Array.prototype.toString` does. -/
def jsToStringItems : List JsValue → String
  | [] => ""
  | [x] => jsToString x
  | x :: rest => jsToString x ++ "," ++ jsToStringItems rest

end

/-- Skip JSON whitespace. -/
def skipWs : List Char → List Char
  | c :: cs => if c = ' ' ∨ c = '\n' ∨ c = '\t' ∨ c = '\r' then skipWs cs else c :: cs
  | [] => []

/-- Characters of a JSON string literal after the opening quote; the
accumulator is reversed on the closing quote. -/
def parseStringChars : List Char → List Char → Option (List Char × List Char)
  | [], _ => none
  | '"' :: rest, acc => some (acc.reverse, rest)
  | '\\' :: e :: rest, acc =>
    if e = '"' then parseStringChars rest ('"' :: acc)
    else if e = '\\' then parseStringChars rest ('\\' :: acc)
    else if e = '/' then parseStringChars rest ('/' :: acc)
    else if e = 'n' then parseStringChars rest ('\n' :: acc)
    else if e = 't' then parseStringChars rest ('\t' :: acc)
    else if e = 'r' then parseStringChars rest ('\r' :: acc)
    else if e = 'b' then parseStringChars rest (Char.ofNat 8 :: acc)
    else if e = 'f' then parseStringChars rest (Char.ofNat 12 :: acc)
    else none
  | c :: rest, acc =>
    if c.toNat < 32 then none else parseStringChars rest (c :: acc)

/-- JSON string literal body (after the opening quote). -/
def parseStringBody (cs : List Char) : Option (String × List Char) :=
  match parseStringChars cs [] with
  | some (chars, rest) => some (String.mk chars, rest)
  | none => none

/-- Longest prefix of decimal digits. -/
def spanDigits : List Char → List Char × List Char
  | [] => ([], [])
  | c :: rest =>
    if c.isDigit then
      let (ds, r) := spanDigits rest
      (c :: ds, r)
    else ([], c :: rest)

/-- JSON integer literal (optional minus, no leading zeros; fraction and
exponent forms are not recognised, see module comment). -/
def parseNumber (cs : List Char) : Option (JsValue × List Char) :=
  let (neg, cs1) := match cs with
    | '-' :: r => (true, r)
    | _ => (false, cs)
  let (ds, rest) := spanDigits cs1
  match ds with
  | [] => none
  | d :: ds' =>
    if d = '0' ∧ ds' ≠ [] then none
    else
      let n : Nat := (d :: ds').foldl (fun a c => a * 10 + (c.toNat - 48)) 0
      some (.num (if neg then -(n : Int) else (n : Int)), rest)

mutual

/-- One JSON value, fuel-bounded recursive descent. -/
def parseVal : Nat → List Char → Option (JsValue × List Char)
  | 0, _ => none
  | fuel + 1, cs =>
    match skipWs cs with
    | 'n' :: 'u' :: 'l' :: 'l' :: rest => some (.null, rest)
    | 't' :: 'r' :: 'u' :: 'e' :: rest => some (.bool true, rest)
    | 'f' :: 'a' :: 'l' :: 's' :: 'e' :: rest => some (.bool false, rest)
    | '"' :: rest =>
      match parseStringBody rest with
      | some (s, r) => some (.str s, r)
      | none => none
    | '{' :: rest =>
      match skipWs rest with
      | '}' :: r => some (.obj [], r)
      | cs2 => parseMembers fuel cs2 []
    | '[' :: rest =>
      match skipWs rest with
      | ']' :: r => some (.arr [], r)
      | cs2 => parseItems fuel cs2 []
    | c :: rest =>
      if c = '-' ∨ c.isDigit then parseNumber (c :: rest) else none
    | [] => none

/-- Object members, starting at a key (empty objects are handled by the
caller, so a trailing comma is rejected as `JSON.parse` does). -/
def parseMembers : Nat → List Char → List (String × JsValue) →
    Option (JsValue × List Char)
  | 0, _, _ => none
  | fuel + 1, cs, acc =>
    match cs with
    | '"' :: rest =>
      match parseStringBody rest with
      | none => none
      | some (k, r1) =>
        match skipWs r1 with
        | ':' :: r2 =>
          match parseVal fuel (skipWs r2) with
          | none => none
          | some (v, r3) =>
            match skipWs r3 with
            | ',' :: r4 => parseMembers fuel (skipWs r4) (acc ++ [(k, v)])
            | '}' :: r4 => some (.obj (acc ++ [(k, v)]), r4)
            | _ => none
        | _ => none
    | _ => none

/-- Array items, starting at a value (empty arrays are handled by the
caller). -/
def parseItems : Nat → List Char → List JsValue → Option (JsValue × List Char)
  | 0, _, _ => none
  | fuel + 1, cs, acc =>
    match parseVal fuel cs with
    | none => none
    | some (v, r1) =>
      match skipWs r1 with
      | ',' :: r2 => parseItems fuel (skipWs r2) (acc ++ [v])
      | ']' :: r2 => some (.arr (acc ++ [v]), r2)
      | _ => none

end

/-- Embedding of `JSON.parse`: `some` on a well-formed document, `none` where
`JSON.parse` throws (in particular on the empty string). -/
def jsonParse (s : String) : Option JsValue :=
  match parseVal (s.length + 1) s.data with
  | some (v, rest) => if skipWs rest = [] then some v else none
  | none => none

/-! ## Constants and error messages of `src/index.js` -/

/-- Constant `FAILURE_THRESHOLD` of the source (`const FAILURE_THRESHOLD = 10`). -/
def FAILURE_THRESHOLD : Nat := 10

/-- Constant `SUCCESS_THRESHOLD` of the source (`const SUCCESS_THRESHOLD = 3`). -/
def SUCCESS_THRESHOLD : Nat := 3

/-- Message of the `BadGatewayError` built in `getJobStatus`. -/
def badGatewayMsg (code : Nat) : String :=
  "Wrong http response from host - " ++ toString code

/-- Message of the threshold-escalation `JenkinsAPIError`. -/
def thresholdMsg : String := "Failure Threshold reached, exiting script....."

/-- Message of the default-branch `JenkinsAPIError`. -/
def unknownCodeMsg (code : Nat) : String :=
  "Unknown API error code received: " ++ toString code

/-- Message thrown when the queue document reports cancellation. -/
def cancelledMsg (jobName : String) : String :=
  "Job \x27" ++ jobName ++ "\x27 was cancelled."

/-- Message thrown when the build result is FAILURE or ABORTED. -/
def buildFailedMsg (displayName urlStr : String) : String :=
  "Job \x27" ++ displayName ++ "\x27 - " ++ urlStr ++ " failed."

/-- Wrapping applied by the catch block of the build-polling loop
(`Prod-to-env sync job failed,  ` + the original message, two spaces as in
the source). -/
def wrapSyncFailure (m : String) : String :=
  "Prod-to-env sync job failed,  " ++ m

/-- Message set when the trigger response has no location header. -/
def locationMissingMsg : String := "Failed to find location header in response!"

/-- Message of the deadline timer callback. -/
def timeoutMsg : String := "Job Timeout"

/-- Node `TypeError` raised by `queueData.cancelled` when the parsed queue
document is `null` (or `undefined`). -/
def nullDocTypeError : String :=
  "Cannot read properties of null (reading \x27cancelled\x27)"

/-! ## Transport and `getJobStatus` -/

/-- What the HTTP layer hands to the `request` callback: either a transport
error (`err` truthy) or a response with a status code and an optional body. -/
inductive HttpResponse where
  | error (msg : String)
  | ok (statusCode : Nat) (body : Option String)

/-- What one `getJobStatus` response callback does.  `resolved`,
`badGateway` and `apiError` settle the promise and the caller observes them.
`transportError` records the `err` branch: the callback logs, clears the
timer and calls `reject(err)`, but the missing `return` then evaluates
`res.statusCode` with `res` undefined — an uncaught TypeError inside the
request callback that kills the process before the already-scheduled
rejection can be observed by the awaiting code.  `parseCrash` records a
`JSON.parse` throw before `resolve`: also an uncaught exception in the
callback (and the promise never settled at all). -/
inductive PollResult where
  | resolved (doc : JsValue)
  | badGateway (msg : String)
  | apiError (msg : String)
  | transportError (msg : String)
  | parseCrash

/-- JS `statusUrl.endsWith("/")`: for the one-character suffix this is
exactly a test on the last character. -/
def endsWithSlash (s : String) : Bool := s.data.getLast? == some '/'

/-- The normalisation at the top of `getJobStatus`: ensure a trailing `/`. -/
def normalizeStatusUrl (statusUrl : String) : String :=
  if endsWithSlash statusUrl then statusUrl else statusUrl ++ "/"

/-- The URL the status request is issued against: the normalised status URL
followed by `api/json`. -/
def statusRequestUrl (statusUrl : String) : String :=
  normalizeStatusUrl statusUrl ++ "api/json"

/-- The response callback of `getJobStatus`, threading the module-global
`failureCount`.  Notes on the source's control flow: on a transport error the
callback clears the timer and rejects with `err`, but the missing `return`
then throws an uncaught TypeError (`res.statusCode` on undefined), so the
rejection is never consumed — see `PollResult.transportError`; on a 502 over
threshold the first `reject` wins but `failureCount += 1` still executes; the
missing `break` after the 502 branch falls into `default`, whose `reject` is
ignored because the promise is already settled. -/
def getJobStatus (failureCount : Nat) (resp : HttpResponse) :
    PollResult × Nat :=
  match resp with
  | .error m => (.transportError m, failureCount)
  | .ok code body =>
    if code = 200 then
      match body with
      | some s =>
        match jsonParse s with
        | some v => (.resolved v, failureCount)
        | none => (.parseCrash, failureCount)
      | none => (.parseCrash, failureCount)
    else if code = 502 then
      if failureCount > FAILURE_THRESHOLD then
        (.apiError thresholdMsg, failureCount + 1)
      else
        (.badGateway (badGatewayMsg code), failureCount + 1)
    else
      (.apiError (unknownCodeMsg code), failureCount)

/-! ## The waiting state machine (`waitJenkinsJob`) -/

/-- The mutable state of one `waitJenkinsJob` run: the local `buildUrl`, the
module globals `failureCount`, `successCount` and `jenkinsBuildUrl`, and the
trace of `core.setOutput("jenkinsBuildUrl", _)` calls. -/
structure MachineState where
  buildUrl : Option String
  failureCount : Nat
  successCount : Nat
  jenkinsBuildUrl : Option String
  outputEvents : List String

/-- The state on entry to `waitJenkinsJob` in a fresh process. -/
def initialState : MachineState :=
  { buildUrl := none, failureCount := 0, successCount := 0,
    jenkinsBuildUrl := none, outputEvents := [] }

/-- The state immediately after the queue poll that assigned build URL `u`
in a fresh run (counters untouched, output emitted once). -/
def buildEntry (u : String) : MachineState :=
  { buildUrl := some u, failureCount := 0, successCount := 0,
    jenkinsBuildUrl := some u, outputEvents := [u] }

/-- Stringification of the global `jenkinsBuildUrl` in a template literal. -/
def jsShowUrl : Option String → String
  | none => "undefined"
  | some s => s

/-- Outcome of the queue-phase handling of a resolved queue document. -/
inductive QueueStep where
  | fatalErr (msg : String)
  | assigned (url : String)
  | sleepRepeat

/-- The queue-phase body of `waitJenkinsJob` applied to a resolved queue
document: cancellation is checked first, then the executable descriptor; a
`null` document faults on the very first property access. -/
def processQueueDoc (jobName : String) (q : JsValue) : QueueStep :=
  match q with
  | .null => .fatalErr nullDocTypeError
  | .undefined => .fatalErr nullDocTypeError
  | _ =>
    if truthy (jsField q "cancelled") then .fatalErr (cancelledMsg jobName)
    else
      let ex := jsField q "executable"
      if truthy ex && truthy (jsField ex "url") then
        .assigned (jsToString (jsField ex "url"))
      else .sleepRepeat

/-- Outcome of the build-phase handling of a resolved build document. -/
inductive BuildStep where
  | completed
  | fatalErr (msg : String)
  | sleepRepeat

/-- The build-phase body of `waitJenkinsJob` applied to a resolved build
document, threading `successCount`: a falsy document is "empty, waiting"; on
SUCCESS the threshold is compared before the increment and `break` leaves the
counter untouched; FAILURE/ABORTED throws, which the surrounding catch
rethrows wrapped. -/
def processBuildDoc (successCount : Nat) (publishedUrl : Option String)
    (b : JsValue) : BuildStep × Nat :=
  if !truthy b then (.sleepRepeat, successCount)
  else if jsLooseEqStr (jsField b "result") "SUCCESS" then
    if successCount ≥ SUCCESS_THRESHOLD then (.completed, successCount)
    else (.sleepRepeat, successCount + 1)
  else if jsLooseEqStr (jsField b "result") "FAILURE"
      || jsLooseEqStr (jsField b "result") "ABORTED" then
    (.fatalErr (wrapSyncFailure
        (buildFailedMsg (jsToString (jsField b "fullDisplayName"))
          (jsShowUrl publishedUrl))), successCount)
  else (.sleepRepeat, successCount)

/-- How a `waitJenkinsJob` run ends, with the machine state at that point and
(where it exists) the unconsumed remainder of the response oracle.
`crashed` is the parse-crash path: an exception escaped the response
callback with the promise unsettled, so the process dies with the timer
still armed.  `transportCrashed` is the transport-error path: the callback
cleared the timer and rejected, then the missing `return` threw an uncaught
TypeError, killing the process before the rejection could be observed — in
both cases the loop never continues and nothing propagates to `main`. -/
inductive RunResult where
  | success (st : MachineState) (rest : List HttpResponse)
  | fatal (msg : String) (st : MachineState) (rest : List HttpResponse)
  | crashed (st : MachineState)
  | transportCrashed (msg : String) (st : MachineState)
  | pending (st : MachineState)

/-- The machine state a run ends in. -/
def RunResult.finalState : RunResult → MachineState
  | .success st _ => st
  | .fatal _ st _ => st
  | .crashed st => st
  | .transportCrashed _ st => st
  | .pending st => st

/-- The `while (true)` loop of `waitJenkinsJob`, consuming one oracle
response per `getJobStatus` call.  While `buildUrl` is unset the queue is
polled; that call sits outside the `try`, so any rejection there (including a
transient `BadGatewayError`) escapes the function.  Once `buildUrl` is set the
same iteration falls through to the build poll, whose rejections are caught:
`BadGatewayError` sleeps and retries, anything else is rethrown wrapped.
A transport error never surfaces as a rejection in either phase: the
response callback kills the process (see `PollResult.transportError`), so
neither the fatal path nor the catch block runs — modelled as
`transportCrashed`. -/
def runWait (jobName : String) (st : MachineState) :
    List HttpResponse → RunResult
  | [] => .pending st
  | r :: rest =>
    match st.buildUrl with
    | none =>
      match getJobStatus st.failureCount r with
      | (.resolved q, fc) =>
        match processQueueDoc jobName q with
        | .fatalErr m => .fatal m { st with failureCount := fc } rest
        | .sleepRepeat => runWait jobName { st with failureCount := fc } rest
        | .assigned url =>
          runWait jobName
            { st with
                failureCount := fc
                buildUrl := some url
                jenkinsBuildUrl := some url
                outputEvents := st.outputEvents ++ [url] } rest
      | (.badGateway m, fc) => .fatal m { st with failureCount := fc } rest
      | (.apiError m, fc) => .fatal m { st with failureCount := fc } rest
      | (.transportError m, fc) =>
        .transportCrashed m { st with failureCount := fc }
      | (.parseCrash, fc) => .crashed { st with failureCount := fc }
    | some _ =>
      match getJobStatus st.failureCount r with
      | (.resolved b, fc) =>
        match processBuildDoc st.successCount st.jenkinsBuildUrl b with
        | (.completed, sc) =>
          .success { st with failureCount := fc, successCount := sc } rest
        | (.fatalErr m, sc) =>
          .fatal m { st with failureCount := fc, successCount := sc } rest
        | (.sleepRepeat, sc) =>
          runWait jobName { st with failureCount := fc, successCount := sc } rest
      | (.badGateway _, fc) => runWait jobName { st with failureCount := fc } rest
      | (.apiError m, fc) =>
        .fatal (wrapSyncFailure m) { st with failureCount := fc } rest
      | (.transportError m, fc) =>
        .transportCrashed m { st with failureCount := fc }
      | (.parseCrash, fc) => .crashed { st with failureCount := fc }

/-! ## Trigger and `main` -/

/-- The response seen by `triggerJenkinsJob`'s request callback. -/
inductive TriggerResponse where
  | error (msg : String)
  | ok (headers : List (String × String))

/-- First-match header lookup. -/
def lookupHeader : List (String × String) → String → Option String
  | [], _ => none
  | (k, v) :: rest, name => if k = name then some v else lookupHeader rest name

/-- What `triggerJenkinsJob` does: `result` is the resolution value (the
location header) when the promise resolves; on both failure paths the
function itself calls `core.setFailed` (recorded in `reported`) and
`clearTimeout(timer)` (recorded in `timerClearedAtTrigger`) and then rejects
with no value. -/
structure TriggerOutcome where
  result : Option String
  reported : Option String
  timerClearedAtTrigger : Bool

/-- Embedding of `triggerJenkinsJob`'s callback: a transport error or a
missing (or empty, hence falsy) location header is reported and rejected at
the trigger site; otherwise the promise resolves with the header value. -/
def triggerJenkinsJob : TriggerResponse → TriggerOutcome
  | .error m => ⟨none, some m, true⟩
  | .ok headers =>
    match lookupHeader headers "location" with
    | none => ⟨none, some locationMissingMsg, true⟩
    | some loc =>
      if loc = "" then ⟨none, some locationMissingMsg, true⟩
      else ⟨some loc, none, false⟩

/-- What `main`'s catch/finally arrangement produces.  `uncaughtCrash` is
the case where an exception escaped a poll's response callback and killed
the process: `main` never resumes, so neither its catch nor its finally
runs. -/
inductive MainOutcome where
  | ok
  | reportedFailure (msg : String)
  | catchCrashed
  | uncaughtCrash
  | oracleExhausted

/-- Observables of one `main` invocation: the outcome, what was reported at
the trigger site, whether the waiting machine was entered, and whether the
timer handle was cleared by the time the run settled. -/
structure MainResult where
  outcome : MainOutcome
  triggerReported : Option String
  enteredWait : Bool
  timerCleared : Bool

/-- Embedding of `main`: trigger, then wait only when the `wait` input is the
exact string "true".  A trigger rejection carries no value, so the catch
block's `err.message` itself throws (`catchCrashed`); the `finally` still
clears the timer.  An exception thrown by `waitJenkinsJob` is reported by
the single top-level handler with the timer cleared by the `finally`.  If a
poll's response callback crashed the process, `main` never resumes and its
catch/finally never run: nothing is reported, and the timer handle was
cleared beforehand only on the transport-error path (inside `getJobStatus`),
not on the parse-crash path. -/
def mainRun (waitInput : String) (tr : TriggerResponse) (jobName : String)
    (responses : List HttpResponse) : MainResult :=
  let t := triggerJenkinsJob tr
  match t.result with
  | none => ⟨.catchCrashed, t.reported, false, true⟩
  | some _ =>
    if waitInput = "true" then
      match runWait jobName initialState responses with
      | .success _ _ => ⟨.ok, t.reported, true, true⟩
      | .fatal m _ _ => ⟨.reportedFailure m, t.reported, true, true⟩
      | .crashed _ => ⟨.uncaughtCrash, t.reported, true, false⟩
      | .transportCrashed _ _ => ⟨.uncaughtCrash, t.reported, true, true⟩
      | .pending _ => ⟨.oracleExhausted, t.reported, true, false⟩
    else ⟨.ok, t.reported, false, true⟩

/-! ## Concrete documents used in witnesses and counterexamples -/

/-- A build status body reporting SUCCESS. -/
def succBody : String := "\x7b\"result\":\"SUCCESS\"\x7d"

/-- A status body for a still-running build (no `result` field; also usable
as a queue body with only a wait reason). -/
def runningBody : String := "\x7b\"why\":\"waiting\"\x7d"

/-- A queue status body carrying an executable descriptor. -/
def execBody : String :=
  "\x7b\"executable\":\x7b\"url\":\"https://ci/build/5/\"\x7d\x7d"

/-- The parsed form of `runningBody`. -/
def runningDoc : JsValue := .obj [("why", .str "waiting")]

/-- The parsed form of `succBody`. -/
def succDoc : JsValue := .obj [("result", .str "SUCCESS")]

/-- The published-output invariant of the waiting machine: before build
assignment nothing has been published; after it, the single published value
is the build URL itself. -/
def OutputInv (st : MachineState) : Prop :=
  (st.buildUrl = none → st.outputEvents = [] ∧ st.jenkinsBuildUrl = none)
  ∧ (∀ u, st.buildUrl = some u →
      st.outputEvents = [u] ∧ st.jenkinsBuildUrl = some u)

/-! ## Helper lemmas about single loop steps -/

theorem runWait_nil (jn : String) (st : MachineState) :
    runWait jn st [] = .pending st := rfl

theorem runWait_build_502 (jn : String) (st : MachineState) (bu : String)
    (b : Option String) (rest : List HttpResponse)
    (hb : st.buildUrl = some bu) (hf : st.failureCount ≤ FAILURE_THRESHOLD) :
    runWait jn st (HttpResponse.ok 502 b :: rest)
      = runWait jn { st with failureCount := st.failureCount + 1 } rest := by
  have h2 : ¬ st.failureCount > FAILURE_THRESHOLD := by omega
  simp [runWait, hb, getJobStatus, h2]

theorem runWait_build_502_esc (jn : String) (st : MachineState) (bu : String)
    (b : Option String) (rest : List HttpResponse)
    (hb : st.buildUrl = some bu) (hf : FAILURE_THRESHOLD < st.failureCount) :
    runWait jn st (HttpResponse.ok 502 b :: rest)
      = .fatal (wrapSyncFailure thresholdMsg)
          { st with failureCount := st.failureCount + 1 } rest := by
  simp [runWait, hb, getJobStatus, hf]

theorem runWait_queue_502 (jn : String) (st : MachineState)
    (b : Option String) (rest : List HttpResponse)
    (hb : st.buildUrl = none) (hf : st.failureCount ≤ FAILURE_THRESHOLD) :
    runWait jn st (HttpResponse.ok 502 b :: rest)
      = .fatal (badGatewayMsg 502)
          { st with failureCount := st.failureCount + 1 } rest := by
  have h2 : ¬ st.failureCount > FAILURE_THRESHOLD := by omega
  simp [runWait, hb, getJobStatus, h2]

theorem runWait_build_success_step (jn : String) (st : MachineState)
    (bu body : String) (d : JsValue) (rest : List HttpResponse)
    (hb : st.buildUrl = some bu) (hp : jsonParse body = some d)
    (hd : truthy d = true)
    (hs : jsLooseEqStr (jsField d "result") "SUCCESS" = true)
    (hc : st.successCount < SUCCESS_THRESHOLD) :
    runWait jn st (HttpResponse.ok 200 (some body) :: rest)
      = runWait jn { st with successCount := st.successCount + 1 } rest := by
  have hc' : ¬ st.successCount ≥ SUCCESS_THRESHOLD := by omega
  simp [runWait, hb, getJobStatus, hp, processBuildDoc, hd, hs, hc']

theorem runWait_build_success_break (jn : String) (st : MachineState)
    (bu body : String) (d : JsValue) (rest : List HttpResponse)
    (hb : st.buildUrl = some bu) (hp : jsonParse body = some d)
    (hd : truthy d = true)
    (hs : jsLooseEqStr (jsField d "result") "SUCCESS" = true)
    (hc : SUCCESS_THRESHOLD ≤ st.successCount) :
    runWait jn st (HttpResponse.ok 200 (some body) :: rest)
      = .success st rest := by
  obtain ⟨b0, fc0, sc0, ju0, oe0⟩ := st
  simp only [MachineState.buildUrl] at hb
  subst hb
  simp [runWait, getJobStatus, hp, processBuildDoc, hd, hs, hc] at hc ⊢

theorem runWait_build_running (jn : String) (st : MachineState)
    (bu body : String) (d : JsValue) (rest : List HttpResponse)
    (hb : st.buildUrl = some bu) (hp : jsonParse body = some d)
    (hd : truthy d = true)
    (h1 : jsLooseEqStr (jsField d "result") "SUCCESS" = false)
    (h2 : jsLooseEqStr (jsField d "result") "FAILURE" = false)
    (h3 : jsLooseEqStr (jsField d "result") "ABORTED" = false) :
    runWait jn st (HttpResponse.ok 200 (some body) :: rest)
      = runWait jn st rest := by
  obtain ⟨b0, fc0, sc0, ju0, oe0⟩ := st
  simp only [MachineState.buildUrl] at hb
  subst hb
  simp [runWait, getJobStatus, hp, processBuildDoc, hd, h1, h2, h3]

theorem runWait_queue_assign (jn : String) (st : MachineState)
    (body : String) (q : JsValue) (u : String) (rest : List HttpResponse)
    (hb : st.buildUrl = none) (hp : jsonParse body = some q)
    (ha : processQueueDoc jn q = QueueStep.assigned u) :
    runWait jn st (HttpResponse.ok 200 (some body) :: rest)
      = runWait jn
          { st with
              buildUrl := some u
              jenkinsBuildUrl := some u
              outputEvents := st.outputEvents ++ [u] } rest := by
  simp [runWait, hb, getJobStatus, hp, ha]

theorem runWait_build_replicate502 (jn : String) (b : Option String) :
    ∀ (n : Nat) (st : MachineState) (rest : List HttpResponse) (bu : String),
      st.buildUrl = some bu → st.failureCount + n ≤ FAILURE_THRESHOLD + 1 →
      runWait jn st (List.replicate n (HttpResponse.ok 502 b) ++ rest)
        = runWait jn { st with failureCount := st.failureCount + n } rest := by
  intro n
  induction n with
  | zero => intro st rest bu hb hf; simp
  | succ k ih =>
    intro st rest bu hb hf
    rw [List.replicate_succ, List.cons_append,
      runWait_build_502 jn st bu b _ hb (by omega),
      ih { st with failureCount := st.failureCount + 1 } rest bu (by simp [hb])
        (by simp; omega)]
    have h : st.failureCount + 1 + k = st.failureCount + (k + 1) := by omega
    simp [h]

theorem runWait_stable_after_assign (jn : String) :
    ∀ (responses : List HttpResponse) (st : MachineState) (bu : String),
      st.buildUrl = some bu →
      (runWait jn st responses).finalState.buildUrl = st.buildUrl
        ∧ (runWait jn st responses).finalState.jenkinsBuildUrl = st.jenkinsBuildUrl
        ∧ (runWait jn st responses).finalState.outputEvents = st.outputEvents := by
  intro responses
  induction responses with
  | nil => intro st bu hb; simp [runWait, RunResult.finalState]
  | cons r rest ih =>
    intro st bu hb
    simp only [runWait, hb]
    rcases hg : getJobStatus st.failureCount r with ⟨res, fc⟩
    cases res with
    | resolved d =>
      rcases hpb : processBuildDoc st.successCount st.jenkinsBuildUrl d with ⟨step, sc⟩
      cases step <;> simp [RunResult.finalState, hpb]
      case sleepRepeat => exact ih _ bu rfl
    | badGateway m => simp [RunResult.finalState]; exact ih _ bu rfl
    | apiError m => simp [RunResult.finalState]
    | transportError m => simp [RunResult.finalState]
    | parseCrash => simp [RunResult.finalState]

theorem processBuildDoc_completed (sc : Nat) (pub : Option String)
    (b : JsValue) (sc' : Nat)
    (h : processBuildDoc sc pub b = (BuildStep.completed, sc')) :
    SUCCESS_THRESHOLD ≤ sc ∧ sc' = sc := by
  unfold processBuildDoc at h
  split_ifs at h with h1 h2 h3 h4 <;> simp_all

theorem processBuildDoc_mono (sc : Nat) (pub : Option String) (b : JsValue) :
    sc ≤ (processBuildDoc sc pub b).2 := by
  unfold processBuildDoc
  split_ifs <;> simp

theorem runWait_success_ge (jn : String) :
    ∀ (responses : List HttpResponse) (st st' : MachineState)
      (rest : List HttpResponse),
      runWait jn st responses = .success st' rest →
      SUCCESS_THRESHOLD ≤ st'.successCount := by
  intro responses
  induction responses with
  | nil =>
    intro st st' rest h
    simp [runWait] at h
  | cons r tail ih =>
    intro st st' rest h
    rcases hb : st.buildUrl with _ | bu <;>
      simp only [runWait, hb] at h <;>
      rcases hg : getJobStatus st.failureCount r with ⟨res, fc⟩ <;>
      rw [hg] at h
    · cases res with
      | resolved d =>
        cases hq : processQueueDoc jn d with
        | fatalErr m => simp [hq] at h
        | assigned u => simp [hq] at h; exact ih _ _ _ h
        | sleepRepeat => simp [hq] at h; exact ih _ _ _ h
      | badGateway m => simp at h
      | apiError m => simp at h
      | transportError m => simp at h
      | parseCrash => simp at h
    · cases res with
      | resolved d =>
        rcases hpb : processBuildDoc st.successCount st.jenkinsBuildUrl d
          with ⟨step, sc⟩
        cases step with
        | completed =>
          simp [hpb] at h
          obtain ⟨hge, hsc⟩ := processBuildDoc_completed _ _ _ _ hpb
          obtain ⟨h1, h2⟩ := h
          subst h1
          simpa [hsc] using hge
        | fatalErr m => simp [hpb] at h
        | sleepRepeat => simp [hpb] at h; exact ih _ _ _ h
      | badGateway m => simp at h; exact ih _ _ _ h
      | apiError m => simp at h
      | transportError m => simp at h
      | parseCrash => simp at h

theorem runWait_successCount_mono (jn : String) :
    ∀ (responses : List HttpResponse) (st : MachineState),
      st.successCount ≤ (runWait jn st responses).finalState.successCount := by
  intro responses
  induction responses with
  | nil => intro st; simp [runWait, RunResult.finalState]
  | cons r tail ih =>
    intro st
    rcases hb : st.buildUrl with _ | bu
    · simp only [runWait, hb]
      rcases hg : getJobStatus st.failureCount r with ⟨res, fc⟩
      cases res with
      | resolved d =>
        cases hq : processQueueDoc jn d with
        | fatalErr m => simp [hq, RunResult.finalState]
        | assigned u =>
          simp only [hq]
          exact ih
            { buildUrl := some u
              failureCount := fc
              successCount := st.successCount
              jenkinsBuildUrl := some u
              outputEvents := st.outputEvents ++ [u] }
        | sleepRepeat =>
          simp only [hq]
          exact ih
            { buildUrl := none
              failureCount := fc
              successCount := st.successCount
              jenkinsBuildUrl := st.jenkinsBuildUrl
              outputEvents := st.outputEvents }
      | badGateway m => simp [RunResult.finalState]
      | apiError m => simp [RunResult.finalState]
      | transportError m => simp [RunResult.finalState]
      | parseCrash => simp [RunResult.finalState]
    · simp only [runWait, hb]
      rcases hg : getJobStatus st.failureCount r with ⟨res, fc⟩
      cases res with
      | resolved d =>
        rcases hpb : processBuildDoc st.successCount st.jenkinsBuildUrl d
          with ⟨step, sc⟩
        have hm : st.successCount ≤ sc := by
          have hx := processBuildDoc_mono st.successCount st.jenkinsBuildUrl d
          rw [hpb] at hx
          exact hx
        cases step with
        | completed => simp [hpb, RunResult.finalState]; omega
        | fatalErr m => simp [hpb, RunResult.finalState]; omega
        | sleepRepeat =>
          simp only [hpb]
          exact le_trans hm (ih
            { buildUrl := some bu
              failureCount := fc
              successCount := sc
              jenkinsBuildUrl := st.jenkinsBuildUrl
              outputEvents := st.outputEvents })
      | badGateway m =>
        simp only []
        exact ih
          { buildUrl := some bu
            failureCount := fc
            successCount := st.successCount
            jenkinsBuildUrl := st.jenkinsBuildUrl
            outputEvents := st.outputEvents }
      | apiError m => simp [RunResult.finalState]
      | transportError m => simp [RunResult.finalState]
      | parseCrash => simp [RunResult.finalState]

theorem runWait_outputInv (jn : String) :
    ∀ (responses : List HttpResponse) (st : MachineState),
      OutputInv st → OutputInv (runWait jn st responses).finalState := by
  intro responses
  induction responses with
  | nil => intro st hI; simpa [runWait, RunResult.finalState] using hI
  | cons r tail ih =>
    intro st hI
    rcases hb : st.buildUrl with _ | bu
    · have hE : st.outputEvents = [] ∧ st.jenkinsBuildUrl = none := hI.1 hb
      simp only [runWait, hb]
      rcases hg : getJobStatus st.failureCount r with ⟨res, fc⟩
      cases res with
      | resolved d =>
        cases hq : processQueueDoc jn d with
        | fatalErr m =>
          simp only [hq, RunResult.finalState]
          exact ⟨fun _ => hE, fun u hu => by exact Option.noConfusion hu⟩
        | assigned u =>
          simp only [hq]
          refine ih _ ⟨fun hn => Option.noConfusion hn, fun u' hu' => ?_⟩
          have : u = u' := Option.some.inj hu'
          subst this
          simp [hE.1]
        | sleepRepeat =>
          simp only [hq]
          exact ih _ ⟨fun _ => hE, fun u hu => Option.noConfusion hu⟩
      | badGateway m =>
        simp only [RunResult.finalState]
        exact ⟨fun _ => hE, fun u hu => Option.noConfusion hu⟩
      | apiError m =>
        simp only [RunResult.finalState]
        exact ⟨fun _ => hE, fun u hu => Option.noConfusion hu⟩
      | transportError m =>
        simp only [RunResult.finalState]
        exact ⟨fun _ => hE, fun u hu => Option.noConfusion hu⟩
      | parseCrash =>
        simp only [RunResult.finalState]
        exact ⟨fun _ => hE, fun u hu => Option.noConfusion hu⟩
    · have hE : st.outputEvents = [bu] ∧ st.jenkinsBuildUrl = some bu := hI.2 bu hb
      simp only [runWait, hb]
      rcases hg : getJobStatus st.failureCount r with ⟨res, fc⟩
      have hinv2 : ∀ fc2 sc2, OutputInv
          { buildUrl := some bu, failureCount := fc2, successCount := sc2,
            jenkinsBuildUrl := st.jenkinsBuildUrl,
            outputEvents := st.outputEvents } := by
        intro fc2 sc2
        refine ⟨fun hn => Option.noConfusion hn, fun u hu => ?_⟩
        have : bu = u := Option.some.inj hu
        subst this
        exact hE
      cases res with
      | resolved d =>
        rcases hpb : processBuildDoc st.successCount st.jenkinsBuildUrl d
          with ⟨step, sc⟩
        cases step with
        | completed =>
          simp only [hpb, RunResult.finalState]
          exact hinv2 fc sc
        | fatalErr m =>
          simp only [hpb, RunResult.finalState]
          exact hinv2 fc sc
        | sleepRepeat =>
          simp only [hpb]
          exact ih _ (hinv2 fc sc)
      | badGateway m =>
        simp only []
        exact ih _ (hinv2 fc st.successCount)
      | apiError m =>
        simp only [RunResult.finalState]
        exact hinv2 fc st.successCount
      | transportError m =>
        simp only [RunResult.finalState]
        exact hinv2 fc st.successCount
      | parseCrash =>
        simp only [RunResult.finalState]
        exact hinv2 fc st.successCount

theorem trigger_resolved_reported (tr : TriggerResponse) (loc : String)
    (h : (triggerJenkinsJob tr).result = some loc) :
    (triggerJenkinsJob tr).reported = none := by
  cases tr with
  | error m => simp [triggerJenkinsJob] at h
  | ok headers =>
    rcases hl : lookupHeader headers "location" with _ | l
    · simp [triggerJenkinsJob, hl] at h
    · by_cases he : l = "" <;> simp [triggerJenkinsJob, hl, he] at h ⊢

theorem trigger_rejected_reported (tr : TriggerResponse)
    (h : (triggerJenkinsJob tr).result = none) :
    ((triggerJenkinsJob tr).reported).isSome = true := by
  cases tr with
  | error m => rfl
  | ok headers =>
    rcases hl : lookupHeader headers "location" with _ | l
    · simp [triggerJenkinsJob, hl]
    · by_cases he : l = "" <;> simp [triggerJenkinsJob, hl, he] at h ⊢

theorem endsWithSlash_append (u : String) : endsWithSlash (u ++ "/") = true := by
  simp [endsWithSlash, String.data_append]

/-! ## Claim theorems -/

/-- C1 counterexample: a sequence of ELEVEN consecutive 502 responses — of
length greater than 10 — followed by a 200 does NOT fail with the
threshold error: the strict greater-than check before the increment lets all
eleven through, and the run proceeds. -/
theorem c1_counterexample :
    runWait "job" (buildEntry "https://ci/build/5/")
        (List.replicate 11 (HttpResponse.ok 502 none)
          ++ [HttpResponse.ok 200 (some runningBody)])
      = RunResult.pending
          { buildEntry "https://ci/build/5/" with failureCount := 11 } := by
  rfl

/-- C1 (amended): during build-phase status polling from a fresh failure
counter, every sequence of at most `FAILURE_THRESHOLD + 1 = 11` consecutive
502 responses followed by a 200 carrying a still-running document is survived
without fatal error; a sequence of `FAILURE_THRESHOLD + 2 = 12` or more 502s
makes the run fail with the threshold-exceeded error on the 12th 502. -/
theorem c1_failure_threshold (jn bu body : String) (d : JsValue) (k : Nat)
    (hp : jsonParse body = some d) (hd : truthy d = true)
    (h1 : jsLooseEqStr (jsField d "result") "SUCCESS" = false)
    (h2 : jsLooseEqStr (jsField d "result") "FAILURE" = false)
    (h3 : jsLooseEqStr (jsField d "result") "ABORTED" = false) :
    (k ≤ FAILURE_THRESHOLD + 1 →
      runWait jn (buildEntry bu)
          (List.replicate k (HttpResponse.ok 502 none)
            ++ [HttpResponse.ok 200 (some body)])
        = RunResult.pending { buildEntry bu with failureCount := k })
    ∧ (FAILURE_THRESHOLD + 2 ≤ k → ∀ tail,
      runWait jn (buildEntry bu)
          (List.replicate k (HttpResponse.ok 502 none) ++ tail)
        = RunResult.fatal (wrapSyncFailure thresholdMsg)
            { buildEntry bu with failureCount := FAILURE_THRESHOLD + 2 }
            (List.replicate (k - (FAILURE_THRESHOLD + 2))
              (HttpResponse.ok 502 none) ++ tail)) := by
  constructor
  · intro hk
    replace hk : k ≤ 11 := by simpa [FAILURE_THRESHOLD] using hk
    rw [runWait_build_replicate502 jn none k (buildEntry bu) _ bu rfl
      (by simp [buildEntry, FAILURE_THRESHOLD]; omega)]
    rw [runWait_build_running jn _ bu body d _ rfl hp hd h1 h2 h3, runWait_nil]
    simp [buildEntry]
  · intro hk tail
    replace hk : 12 ≤ k := by simpa [FAILURE_THRESHOLD] using hk
    have hsplit : List.replicate k (HttpResponse.ok 502 none)
        = List.replicate 11 (HttpResponse.ok 502 none)
          ++ List.replicate (k - 11) (HttpResponse.ok 502 none) := by
      rw [← List.replicate_add]
      congr 1
      omega
    rw [hsplit, List.append_assoc]
    rw [runWait_build_replicate502 jn none 11 (buildEntry bu) _ bu rfl
      (by simp [buildEntry, FAILURE_THRESHOLD])]
    have h12 : k - 11 = (k - 12) + 1 := by omega
    rw [h12, List.replicate_succ, List.cons_append]
    rw [runWait_build_502_esc jn _ bu none _ rfl
      (by simp [buildEntry, FAILURE_THRESHOLD])]
    simp [buildEntry, FAILURE_THRESHOLD]

theorem c1_failure_threshold_witness :
    runWait "jobw" (buildEntry "u")
        (List.replicate 13 (HttpResponse.ok 502 none)
          ++ [HttpResponse.ok 200 (some runningBody)])
      = RunResult.fatal (wrapSyncFailure thresholdMsg)
          { buildEntry "u" with failureCount := FAILURE_THRESHOLD + 2 }
          (List.replicate (13 - (FAILURE_THRESHOLD + 2))
              (HttpResponse.ok 502 none)
            ++ [HttpResponse.ok 200 (some runningBody)]) :=
  (c1_failure_threshold "jobw" "u" runningBody runningDoc 13 (by rfl) (by rfl)
      (by rfl) (by rfl) (by rfl)).2 (by norm_num [FAILURE_THRESHOLD]) _

/-- C2 counterexample: three consecutive SUCCESS-classified polls
(`SUCCESS_THRESHOLD = 3`) do NOT terminate the machine — after the third
SUCCESS poll it is still polling, because the threshold is compared before
the counter is incremented. -/
theorem c2_counterexample :
    runWait "job" (buildEntry "https://ci/build/6/")
        (List.replicate 3 (HttpResponse.ok 200 (some succBody)))
      = RunResult.pending
          { buildEntry "https://ci/build/6/" with successCount := 3 } := by
  rfl

/-- C2 (amended): in the build-termination loop from a fresh success counter,
exactly two consecutive SUCCESS polls followed by a non-SUCCESS non-terminal
poll do not terminate the machine; three consecutive SUCCESS polls do not
terminate it either; it terminates successfully on the FOURTH consecutive
SUCCESS-classified poll, not earlier. -/
theorem c2_success_debounce (jn bu bs br : String) (ds dr : JsValue)
    (hps : jsonParse bs = some ds) (hds : truthy ds = true)
    (hss : jsLooseEqStr (jsField ds "result") "SUCCESS" = true)
    (hpr : jsonParse br = some dr) (hdr : truthy dr = true)
    (hr1 : jsLooseEqStr (jsField dr "result") "SUCCESS" = false)
    (hr2 : jsLooseEqStr (jsField dr "result") "FAILURE" = false)
    (hr3 : jsLooseEqStr (jsField dr "result") "ABORTED" = false) :
    (runWait jn (buildEntry bu)
        [HttpResponse.ok 200 (some bs), HttpResponse.ok 200 (some bs),
          HttpResponse.ok 200 (some br)]
      = RunResult.pending
          { buildEntry bu with successCount := SUCCESS_THRESHOLD - 1 })
    ∧ (runWait jn (buildEntry bu)
        [HttpResponse.ok 200 (some bs), HttpResponse.ok 200 (some bs),
          HttpResponse.ok 200 (some bs)]
      = RunResult.pending
          { buildEntry bu with successCount := SUCCESS_THRESHOLD })
    ∧ (∀ tail, runWait jn (buildEntry bu)
        (HttpResponse.ok 200 (some bs) :: HttpResponse.ok 200 (some bs)
          :: HttpResponse.ok 200 (some bs) :: HttpResponse.ok 200 (some bs)
          :: tail)
      = RunResult.success
          { buildEntry bu with successCount := SUCCESS_THRESHOLD } tail) := by
  have e1 : ∀ l, runWait jn (buildEntry bu) (HttpResponse.ok 200 (some bs) :: l)
      = runWait jn { buildEntry bu with successCount := 1 } l := fun l =>
    runWait_build_success_step jn (buildEntry bu) bu bs ds l rfl hps hds hss
      (by norm_num [buildEntry, SUCCESS_THRESHOLD])
  have e2 : ∀ l, runWait jn { buildEntry bu with successCount := 1 }
        (HttpResponse.ok 200 (some bs) :: l)
      = runWait jn { buildEntry bu with successCount := 2 } l := fun l =>
    runWait_build_success_step jn { buildEntry bu with successCount := 1 } bu
      bs ds l rfl hps hds hss (by norm_num [buildEntry, SUCCESS_THRESHOLD])
  have e3 : ∀ l, runWait jn { buildEntry bu with successCount := 2 }
        (HttpResponse.ok 200 (some bs) :: l)
      = runWait jn { buildEntry bu with successCount := 3 } l := fun l =>
    runWait_build_success_step jn { buildEntry bu with successCount := 2 } bu
      bs ds l rfl hps hds hss (by norm_num [buildEntry, SUCCESS_THRESHOLD])
  have eb : ∀ l, runWait jn { buildEntry bu with successCount := 3 }
        (HttpResponse.ok 200 (some bs) :: l)
      = RunResult.success { buildEntry bu with successCount := 3 } l := fun l =>
    runWait_build_success_break jn { buildEntry bu with successCount := 3 } bu
      bs ds l rfl hps hds hss (by norm_num [buildEntry, SUCCESS_THRESHOLD])
  have er : ∀ l, runWait jn { buildEntry bu with successCount := 2 }
        (HttpResponse.ok 200 (some br) :: l)
      = runWait jn { buildEntry bu with successCount := 2 } l := fun l =>
    runWait_build_running jn { buildEntry bu with successCount := 2 } bu br dr
      l rfl hpr hdr hr1 hr2 hr3
  refine ⟨?_, ?_, ?_⟩
  · rw [e1, e2, er, runWait_nil]
    rfl
  · rw [e1, e2, e3, runWait_nil]
    rfl
  · intro tail
    rw [e1, e2, e3, eb]
    rfl

theorem c2_success_debounce_witness :
    runWait "jobw2" (buildEntry "u2")
        (HttpResponse.ok 200 (some succBody) :: HttpResponse.ok 200 (some succBody)
          :: HttpResponse.ok 200 (some succBody) :: HttpResponse.ok 200 (some succBody)
          :: [])
      = RunResult.success
          { buildEntry "u2" with successCount := SUCCESS_THRESHOLD } [] :=
  (c2_success_debounce "jobw2" "u2" succBody runningBody succDoc runningDoc
      (by rfl) (by rfl) (by rfl) (by rfl) (by rfl) (by rfl) (by rfl)
      (by rfl)).2.2 []

/-- C3 counterexample: a 502 with the failure counter far below the
threshold.  In the queue-assignment phase it is NOT retried — it surfaces to
the caller as a fatal error (the queue poll sits outside the `try`); and even
the retried build-phase 502 increments the failure counter, so the counters
are not preserved. -/
theorem c3_counterexample :
    (runWait "job" initialState [HttpResponse.ok 502 none]
      = RunResult.fatal (badGatewayMsg 502)
          { initialState with failureCount := 1 } [])
    ∧ (runWait "job" (buildEntry "u") [HttpResponse.ok 502 none]
      = RunResult.pending { buildEntry "u" with failureCount := 1 }) :=
  ⟨rfl, rfl⟩

/-- C3 (amended): a 502 with the FailureCounter not above the threshold is
retried silently only in the build-termination phase — the machine carries
on with the same poll, same build reference, same success counter, and a
FailureCounter incremented by one.  In the queue-assignment phase the same
classification escapes the loop as a fatal `BadGatewayError`. -/
theorem c3_transient_handling (jn : String) (st : MachineState)
    (b : Option String) (rest : List HttpResponse)
    (hf : st.failureCount ≤ FAILURE_THRESHOLD) :
    (∀ bu, st.buildUrl = some bu →
      runWait jn st (HttpResponse.ok 502 b :: rest)
        = runWait jn { st with failureCount := st.failureCount + 1 } rest)
    ∧ (st.buildUrl = none →
      runWait jn st (HttpResponse.ok 502 b :: rest)
        = RunResult.fatal (badGatewayMsg 502)
            { st with failureCount := st.failureCount + 1 } rest) :=
  ⟨fun bu hb => runWait_build_502 jn st bu b rest hb hf,
    fun hb => runWait_queue_502 jn st b rest hb hf⟩

theorem c3_transient_handling_witness :
    runWait "jobw3"
      { buildUrl := some "b"
        failureCount := 4
        successCount := 1
        jenkinsBuildUrl := some "b"
        outputEvents := ["b"] }
      [HttpResponse.ok 502 none]
      = runWait "jobw3"
          { buildUrl := some "b"
            failureCount := 5
            successCount := 1
            jenkinsBuildUrl := some "b"
            outputEvents := ["b"] } [] :=
  (c3_transient_handling "jobw3"
      { buildUrl := some "b"
        failureCount := 4
        successCount := 1
        jenkinsBuildUrl := some "b"
        outputEvents := ["b"] }
      none [] (by norm_num [FAILURE_THRESHOLD])).1 "b" rfl

/-- C4: the published build reference (`core.setOutput("jenkinsBuildUrl", _)`)
is emitted at most once per run, exactly at the queue poll whose document
carries an executable URL (and is not cancelled), it always equals the
retained `jenkinsBuildUrl`, and once the build phase is entered neither the
published output trace nor `jenkinsBuildUrl` ever changes again, whatever
later polls return. -/
theorem c4_output_once (jn : String) (responses : List HttpResponse) :
    (((runWait jn initialState responses).finalState.outputEvents = []
        ∧ (runWait jn initialState responses).finalState.jenkinsBuildUrl = none)
      ∨ ∃ u, (runWait jn initialState responses).finalState.outputEvents = [u]
          ∧ (runWait jn initialState responses).finalState.jenkinsBuildUrl
            = some u)
    ∧ (∀ (st : MachineState) (body : String) (q : JsValue) (u : String)
        (rest : List HttpResponse), st.buildUrl = none →
        jsonParse body = some q → processQueueDoc jn q = QueueStep.assigned u →
        runWait jn st (HttpResponse.ok 200 (some body) :: rest)
          = runWait jn
              { st with
                  buildUrl := some u
                  jenkinsBuildUrl := some u
                  outputEvents := st.outputEvents ++ [u] } rest)
    ∧ (∀ (st : MachineState) (bu : String), st.buildUrl = some bu →
        (runWait jn st responses).finalState.jenkinsBuildUrl
            = st.jenkinsBuildUrl
          ∧ (runWait jn st responses).finalState.outputEvents
            = st.outputEvents) := by
  refine ⟨?_, ?_, ?_⟩
  · have hI := runWait_outputInv jn responses initialState
      ⟨fun _ => ⟨rfl, rfl⟩, fun u hu => Option.noConfusion hu⟩
    rcases hfin : (runWait jn initialState responses).finalState.buildUrl
      with _ | u
    · exact Or.inl (hI.1 hfin)
    · exact Or.inr ⟨u, hI.2 u hfin⟩
  · intro st body q u rest hb hp ha
    exact runWait_queue_assign jn st body q u rest hb hp ha
  · intro st bu hb
    have h := runWait_stable_after_assign jn responses st bu hb
    exact ⟨h.2.1, h.2.2⟩

theorem c4_output_once_witness :
    runWait "jobw4" initialState
        (HttpResponse.ok 200 (some execBody) :: [])
      = runWait "jobw4"
          { initialState with
              buildUrl := some "https://ci/build/5/"
              jenkinsBuildUrl := some "https://ci/build/5/"
              outputEvents := ["https://ci/build/5/"] } [] :=
  (c4_output_once "jobw4" []).2.1 initialState execBody
    (JsValue.obj [("executable",
      JsValue.obj [("url", JsValue.str "https://ci/build/5/")])])
    "https://ci/build/5/" [] rfl (by rfl) (by rfl)

/-- C5 counterexample: SUCCESS polls separated by a non-SUCCESS, non-terminal
poll DO jointly satisfy the threshold — the counter is never reset, so the
run `SUCCESS, SUCCESS, SUCCESS, running, SUCCESS` terminates successfully even
though no four SUCCESS reads were consecutive. -/
theorem c5_counterexample :
    runWait "job" (buildEntry "https://ci/build/7/")
        [HttpResponse.ok 200 (some succBody), HttpResponse.ok 200 (some succBody),
          HttpResponse.ok 200 (some succBody),
          HttpResponse.ok 200 (some runningBody),
          HttpResponse.ok 200 (some succBody)]
      = RunResult.success
          { buildEntry "https://ci/build/7/" with successCount := 3 } [] := by
  rfl

/-- C5 (amended): the machine exits with a success determination only when
the SuccessCounter has reached `SUCCESS_THRESHOLD`; the counter is
monotone — incremented on SUCCESS polls and never reset — so SUCCESS reads
accumulate across interrupting non-SUCCESS polls rather than requiring
consecutiveness. -/
theorem c5_success_threshold (jn : String) (st : MachineState)
    (responses : List HttpResponse) :
    (∀ st' rest, runWait jn st responses = RunResult.success st' rest →
      SUCCESS_THRESHOLD ≤ st'.successCount)
    ∧ st.successCount ≤ (runWait jn st responses).finalState.successCount :=
  ⟨fun st' rest h => runWait_success_ge jn responses st st' rest h,
    runWait_successCount_mono jn responses st⟩

theorem c5_success_threshold_witness :
    SUCCESS_THRESHOLD
      ≤ ({ buildEntry "u5" with successCount := 3 } : MachineState).successCount :=
  (c5_success_threshold "jobw5" (buildEntry "u5")
      [HttpResponse.ok 200 (some succBody), HttpResponse.ok 200 (some succBody),
        HttpResponse.ok 200 (some succBody),
        HttpResponse.ok 200 (some succBody)]).1
    { buildEntry "u5" with successCount := 3 } [] (by rfl)

/-- C7 counterexample: a trigger transport error ("socket hang up") does NOT
reach the top-level handler carrying its message — `triggerJenkinsJob`
rejects with no value, so the handler's `err.message` access itself throws
(`catchCrashed`); the message was reported at the trigger site instead. -/
theorem c7_counterexample :
    mainRun "true" (TriggerResponse.error "socket hang up") "job" []
      = ⟨MainOutcome.catchCrashed, some "socket hang up", false, true⟩ := rfl

/-- C7 (amended): waiting-phase conditions that surface as thrown exceptions
(threshold escalation, unknown status codes, cancellation, build failure,
queue-phase 502s) propagate to the single top-level handler, which reports
their message with the timer cleared by the `finally`.  Trigger failures,
however, report their message and clear the timer at the trigger site itself
and then reject with NO value, so the top-level handler crashes reading
`.message` instead of reporting it.  And a waiting-phase transport error
never reaches the handler at all: the missing `return` in the response
callback throws an uncaught TypeError that kills the process (timer already
cleared inside the callback), so nothing is reported. -/
theorem c7_fatal_propagation (tr : TriggerResponse) (w jn : String)
    (responses : List HttpResponse) :
    ((triggerJenkinsJob tr).result = none →
      mainRun w tr jn responses
          = ⟨MainOutcome.catchCrashed, (triggerJenkinsJob tr).reported,
              false, true⟩
        ∧ ((triggerJenkinsJob tr).reported).isSome = true)
    ∧ (∀ (loc m : String) (st : MachineState) (rest : List HttpResponse),
      (triggerJenkinsJob tr).result = some loc →
      runWait jn initialState responses = RunResult.fatal m st rest →
      mainRun "true" tr jn responses
        = ⟨MainOutcome.reportedFailure m, none, true, true⟩)
    ∧ (∀ (loc m : String) (st : MachineState),
      (triggerJenkinsJob tr).result = some loc →
      runWait jn initialState responses = RunResult.transportCrashed m st →
      mainRun "true" tr jn responses
        = ⟨MainOutcome.uncaughtCrash, none, true, true⟩) := by
  refine ⟨?_, ?_, ?_⟩
  · intro h
    refine ⟨?_, trigger_rejected_reported tr h⟩
    simp [mainRun, h]
  · intro loc m st rest h hrun
    simp [mainRun, h, hrun, trigger_resolved_reported tr loc h]
  · intro loc m st h hrun
    simp [mainRun, h, hrun, trigger_resolved_reported tr loc h]

theorem c7_fatal_propagation_witness :
    (mainRun "true" (TriggerResponse.ok [("location", "https://ci/queue/5/")])
        "jobw7" [HttpResponse.ok 404 none]
      = ⟨MainOutcome.reportedFailure (unknownCodeMsg 404), none, true, true⟩)
    ∧ (mainRun "true" (TriggerResponse.ok [("location", "https://ci/queue/5/")])
        "jobw7" [HttpResponse.error "socket hang up"]
      = ⟨MainOutcome.uncaughtCrash, none, true, true⟩) :=
  ⟨(c7_fatal_propagation (TriggerResponse.ok [("location", "https://ci/queue/5/")])
      "true" "jobw7" [HttpResponse.ok 404 none]).2.1
    "https://ci/queue/5/" (unknownCodeMsg 404) initialState [] (by rfl) (by rfl),
   (c7_fatal_propagation (TriggerResponse.ok [("location", "https://ci/queue/5/")])
      "true" "jobw7" [HttpResponse.error "socket hang up"]).2.2
    "https://ci/queue/5/" "socket hang up" initialState (by rfl) (by rfl)⟩

/-- C8: in the build-termination loop a literally empty (or absent) 200 body
is NOT treated as "not ready yet" — `JSON.parse` throws inside the response
callback, so the poll's promise never settles and no retry happens
(`crashed`); only a body that parses to a falsy document (such as the JSON
text `null`) reaches the `!buildData` guard and is retried silently.  The
guard's own log line ("buildData is empty - waiting....") shows the spec's
behaviour is what was intended, so this is a defect of the code. -/
theorem c8_empty_body_crashes :
    (runWait "job" (buildEntry "https://ci/build/8/")
        [HttpResponse.ok 200 (some "")]
      = RunResult.crashed (buildEntry "https://ci/build/8/"))
    ∧ (runWait "job" (buildEntry "https://ci/build/8/")
        [HttpResponse.ok 200 none]
      = RunResult.crashed (buildEntry "https://ci/build/8/"))
    ∧ (runWait "job" (buildEntry "https://ci/build/8/")
        [HttpResponse.ok 200 (some "null")]
      = RunResult.pending (buildEntry "https://ci/build/8/")) :=
  ⟨rfl, rfl, rfl⟩

/-- C9: status requests for a URL without a trailing separator and for the
same URL with one resolve to the identical request URL (the normalised URL
followed by `api/json`), and the normalisation is idempotent. -/
theorem c9_url_normalization (u : String) :
    (endsWithSlash u = false →
      statusRequestUrl (u ++ "/") = statusRequestUrl u)
    ∧ normalizeStatusUrl (normalizeStatusUrl u) = normalizeStatusUrl u := by
  constructor
  · intro h
    unfold statusRequestUrl normalizeStatusUrl
    rw [endsWithSlash_append u, h]
    simp
  · unfold normalizeStatusUrl
    rcases hE : endsWithSlash u with _ | _
    · simp [hE, endsWithSlash_append u]
    · simp [hE]

theorem c9_url_normalization_witness :
    statusRequestUrl ("https://ci/queue/5" ++ "/")
      = statusRequestUrl "https://ci/queue/5" :=
  (c9_url_normalization "https://ci/queue/5").1 (by rfl)

/-- C10: when triggering succeeds, the waiting machine is entered exactly
when the `wait` input is the string "true"; for any other value `main`
reports success immediately after triggering, ignoring the response oracle
entirely (no polling). -/
theorem c10_wait_gate (w jn : String) (tr : TriggerResponse)
    (responses : List HttpResponse) (loc : String)
    (h : (triggerJenkinsJob tr).result = some loc) :
    ((mainRun w tr jn responses).enteredWait = true ↔ w = "true")
    ∧ (w ≠ "true" →
      mainRun w tr jn responses = ⟨MainOutcome.ok, none, false, true⟩
        ∧ mainRun w tr jn responses = mainRun w tr jn []) := by
  have hrep := trigger_resolved_reported tr loc h
  constructor
  · by_cases hw : w = "true"
    · subst hw
      rcases hr : runWait jn initialState responses
        with ⟨st, rest⟩ | ⟨m, st, rest⟩ | st | ⟨m, st⟩ | st <;>
        simp [mainRun, h, hr]
    · simp [mainRun, h, hw]
  · intro hw
    constructor
    · simp [mainRun, h, hw, hrep]
    · simp [mainRun, h, hw]

theorem c10_wait_gate_witness :
    mainRun "True" (TriggerResponse.ok [("location", "https://ci/queue/9/")])
        "jobw10" [HttpResponse.ok 502 none]
      = ⟨MainOutcome.ok, none, false, true⟩ :=
  ((c10_wait_gate "True" "jobw10"
      (TriggerResponse.ok [("location", "https://ci/queue/9/")])
      [HttpResponse.ok 502 none] "https://ci/queue/9/" (by rfl)).2
    (by decide)).1
